import Mathlib

/- Verification of the alert-broadcast, registration and missing-person
   subsystems of the Disaster-Management Flask application (app.py).

   Python strings are modelled through their character lists, SQLite tables
   as lists of row structures.  The external transports (Twilio SMS, SMTP
   email) are modelled as oracles recording which individual sends succeed,
   and the transport calls a route actually performs are collected in an
   event trace. -/

/-- Python str.isspace per character, and hence the character set removed by
    the default str.strip: the exact whitespace code points of CPython 3.11
    (Unicode 14.0): 0x9 to 0xD, 0x1C to 0x1F, space, 0x85, 0xA0, 0x1680,
    0x2000 to 0x200A, 0x2028, 0x2029, 0x202F, 0x205F and 0x3000. -/
def pyIsSpace (c : Char) : Bool :=
  (decide (0x9 ≤ c.toNat) && decide (c.toNat ≤ 0xd))
  || (decide (0x1c ≤ c.toNat) && decide (c.toNat ≤ 0x1f))
  || c.toNat == 0x20 || c.toNat == 0x85 || c.toNat == 0xa0 || c.toNat == 0x1680
  || (decide (0x2000 ≤ c.toNat) && decide (c.toNat ≤ 0x200a))
  || c.toNat == 0x2028 || c.toNat == 0x2029 || c.toNat == 0x202f
  || c.toNat == 0x205f || c.toNat == 0x3000

/-- Python str.strip: remove leading and trailing whitespace. -/
def pyStrip (s : String) : String :=
  ⟨((s.data.dropWhile pyIsSpace).reverse.dropWhile pyIsSpace).reverse⟩

/-- Python str.lower (ASCII case folding). -/
def pyLower (s : String) : String :=
  ⟨s.data.map Char.toLower⟩

/-- Code-point ranges on which Python str.isdigit holds per character,
    generated exhaustively from CPython 3.11 (Unicode 14.0): all decimal
    digits (category Nd) plus the Numeric_Type Digit characters such as
    superscript, circled and parenthesized digits. -/
def pyDigitRanges : List (Nat × Nat) :=
  [(0x30, 0x39), (0xb2, 0xb3), (0xb9, 0xb9), (0x660, 0x669), (0x6f0, 0x6f9),
   (0x7c0, 0x7c9), (0x966, 0x96f), (0x9e6, 0x9ef), (0xa66, 0xa6f), (0xae6, 0xaef),
   (0xb66, 0xb6f), (0xbe6, 0xbef), (0xc66, 0xc6f), (0xce6, 0xcef), (0xd66, 0xd6f),
   (0xde6, 0xdef), (0xe50, 0xe59), (0xed0, 0xed9), (0xf20, 0xf29), (0x1040, 0x1049),
   (0x1090, 0x1099), (0x1369, 0x1371), (0x17e0, 0x17e9), (0x1810, 0x1819),
   (0x1946, 0x194f), (0x19d0, 0x19da), (0x1a80, 0x1a89), (0x1a90, 0x1a99),
   (0x1b50, 0x1b59), (0x1bb0, 0x1bb9), (0x1c40, 0x1c49), (0x1c50, 0x1c59),
   (0x2070, 0x2070), (0x2074, 0x2079), (0x2080, 0x2089), (0x2460, 0x2468),
   (0x2474, 0x247c), (0x2488, 0x2490), (0x24ea, 0x24ea), (0x24f5, 0x24fd),
   (0x24ff, 0x24ff), (0x2776, 0x277e), (0x2780, 0x2788), (0x278a, 0x2792),
   (0xa620, 0xa629), (0xa8d0, 0xa8d9), (0xa900, 0xa909), (0xa9d0, 0xa9d9),
   (0xa9f0, 0xa9f9), (0xaa50, 0xaa59), (0xabf0, 0xabf9), (0xff10, 0xff19),
   (0x104a0, 0x104a9), (0x10a40, 0x10a43), (0x10d30, 0x10d39), (0x10e60, 0x10e68),
   (0x11052, 0x1105a), (0x11066, 0x1106f), (0x110f0, 0x110f9), (0x11136, 0x1113f),
   (0x111d0, 0x111d9), (0x112f0, 0x112f9), (0x11450, 0x11459), (0x114d0, 0x114d9),
   (0x11650, 0x11659), (0x116c0, 0x116c9), (0x11730, 0x11739), (0x118e0, 0x118e9),
   (0x11950, 0x11959), (0x11c50, 0x11c59), (0x11d50, 0x11d59), (0x11da0, 0x11da9),
   (0x16a60, 0x16a69), (0x16ac0, 0x16ac9), (0x16b50, 0x16b59), (0x1d7ce, 0x1d7ff),
   (0x1e140, 0x1e149), (0x1e2f0, 0x1e2f9), (0x1e950, 0x1e959), (0x1f100, 0x1f10a),
   (0x1fbf0, 0x1fbf9)]

/-- Python per-character digit test: the code point lies in one of the
    ranges above. -/
def pyIsDigitChar (c : Char) : Bool :=
  pyDigitRanges.any (fun r => decide (r.1 ≤ c.toNat) && decide (c.toNat ≤ r.2))

/-- Python str.isdigit: nonempty and every character a Python digit.  This
    accepts every Unicode digit character, not only the ASCII decimal
    digits. -/
def pyIsDigit (s : String) : Bool :=
  !s.data.isEmpty && s.data.all pyIsDigitChar

/-- Python len of a string (number of code points). -/
def pyLen (s : String) : Nat :=
  s.data.length

/-- Python truthiness of an optional string: None and the empty string are
    falsy, every other string is truthy. -/
def optTruthy : Option String → Bool
  | none => false
  | some s => s != ""

/-- A row of the users table: a subscriber created by the register route. -/
structure User where
  email : String
  phone : String
  location : String
deriving DecidableEq, Repr

/-- The subscriber set resolved by broadcast_alert: every user when the
    location argument is falsy, else the rows selected by the SQL filter
    WHERE location = ?, which is exact (case-sensitive) string equality. -/
def resolveUsers (users : List User) (location : Option String) : List User :=
  if optTruthy location then users.filter (fun u => some u.location == location)
  else users

/-- The phone partition: the list comprehension keeping truthy phone fields. -/
def phonesOf (users : List User) : List String :=
  (users.filter (fun u => u.phone != "")).map User.phone

/-- The email partition: the list comprehension keeping truthy email fields. -/
def emailsOf (users : List User) : List String :=
  (users.filter (fun u => u.email != "")).map User.email

/-- Outcome oracle for the SMTP transport used by send_email_bulk: configOk
    models the presence of all four EMAIL settings, connOk the success of the
    SMTP_SSL connection plus login, and sendOk the per-recipient outcome of
    server.send_message. -/
structure EmailEnv where
  configOk : Bool
  connOk : Bool
  sendOk : String → Bool

/-- Observable side effects performed by the add_alert route and by the
    broadcast fan-out, listed in program order. -/
inductive Ev where
  | insertAlert (title message : String) (location : Option String)
  | commit
  | smsSend (phone : String)
  | smtpConnect
  | emailSend (addr : String)
deriving DecidableEq, Repr

/-- The per-recipient loop of send_email_bulk: skips falsy addresses,
    attempts every remaining address in order and counts the sends that
    succeed; a per-recipient failure is caught and the loop continues.
    Returns the success count and the list of attempted addresses. -/
def emailLoop (sendOk : String → Bool) : List String → Nat × List String
  | [] => (0, [])
  | e :: rest =>
    if e == "" then emailLoop sendOk rest
    else
      let r := emailLoop sendOk rest
      (if sendOk e then r.1 + 1 else r.1, e :: r.2)

/-- send_email_bulk: returns 0 without touching the network when the email
    settings are missing, 0 after a failed connection or login, and otherwise
    the count delivered by the per-recipient loop, paired with the trace of
    transport events performed. -/
def send_email_bulk (env : EmailEnv) (recipients : List String) : Nat × List Ev :=
  if !env.configOk then (0, [])
  else if !env.connOk then (0, [Ev.smtpConnect])
  else
    let r := emailLoop env.sendOk recipients
    (r.1, Ev.smtpConnect :: r.2.map Ev.emailSend)

/-- Value and transport trace of one broadcast_alert call. -/
structure BroadcastResult where
  returned : Nat
  trace : List Ev
deriving Repr

/-- broadcast_alert: resolves the subscriber set (optionally filtered by
    location), partitions it into truthy phones and emails, returns 0 with no
    transport call when both partitions are empty, and otherwise submits one
    SMS per phone, runs send_email_bulk on the emails when that partition is
    nonempty, and returns max(sms successes, email successes).  smsOk is the
    oracle for whether send_sms returns True on a given phone. -/
def broadcast_alert (smsOk : String → Bool) (env : EmailEnv) (users : List User)
    (location : Option String) : BroadcastResult :=
  let resolved := resolveUsers users location
  let phones := phonesOf resolved
  let emails := emailsOf resolved
  if phones.isEmpty && emails.isEmpty then
    { returned := 0, trace := [] }
  else
    let smsSent := phones.countP smsOk
    let er := if emails.isEmpty then ((0 : Nat), ([] : List Ev))
      else send_email_bulk env emails
    { returned := max smsSent er.1, trace := phones.map Ev.smsSend ++ er.2 }

/-- Phones for which an SMS send was submitted in a trace. -/
def smsSends (tr : List Ev) : List String :=
  tr.filterMap fun e =>
    match e with
    | Ev.smsSend p => some p
    | _ => none

/-- Addresses for which an individual email send was attempted in a trace. -/
def emailSends (tr : List Ev) : List String :=
  tr.filterMap fun e =>
    match e with
    | Ev.emailSend a => some a
    | _ => none

/-- A row of the alerts table. -/
structure Alert where
  title : String
  message : String
  location : Option String
deriving DecidableEq, Repr

/-- The persistent state touched by the add_alert route. -/
structure AppState where
  users : List User
  alerts : List Alert
deriving Repr

/-- Response of the add_alert route. -/
inductive AddAlertOutcome where
  | redirectLogin
  | validationError
  | done (recipients : Nat)
deriving DecidableEq, Repr

/-- Final state, response and side-effect trace of one add_alert request. -/
structure AddAlertResult where
  state : AppState
  outcome : AddAlertOutcome
  trace : List Ev
deriving Repr

/-- The add_alert route: requires an admin session, rejects a missing or
    empty title or message, then inserts and commits the alert row, and only
    afterwards runs broadcast_alert with the same location argument. -/
def add_alert (admin : Bool) (smsOk : String → Bool) (env : EmailEnv) (st : AppState)
    (title message location : Option String) : AddAlertResult :=
  if !admin then { state := st, outcome := AddAlertOutcome.redirectLogin, trace := [] }
  else if !(optTruthy title) || !(optTruthy message) then
    { state := st, outcome := AddAlertOutcome.validationError, trace := [] }
  else
    let a : Alert := { title := title.getD "", message := message.getD "",
                       location := location }
    let st2 : AppState := { st with alerts := st.alerts ++ [a] }
    let r := broadcast_alert smsOk env st2.users location
    { state := st2, outcome := AddAlertOutcome.done r.returned,
      trace := Ev.insertAlert a.title a.message a.location :: Ev.commit :: r.trace }

/-- A registration request body; None models an absent key. -/
structure RegisterRequest where
  email : Option String
  phone : Option String
  location : Option String
deriving Repr

/-- The email value the register route works with: extracted with default
    empty, stripped and lowered. -/
def reqEmail (req : RegisterRequest) : String :=
  pyLower (pyStrip (req.email.getD ""))

/-- The phone value the register route works with: extracted with default
    empty and stripped. -/
def reqPhone (req : RegisterRequest) : String :=
  pyStrip (req.phone.getD "")

/-- The location value the register route works with: extracted with default
    empty and stripped. -/
def reqLocation (req : RegisterRequest) : String :=
  pyStrip (req.location.getD "")

/-- Outcomes of the register and api_register routes.  The JSON responses
    carry the statuses given by RegisterOutcome.http; the form responses
    render the page with the corresponding error or success banner. -/
inductive RegisterOutcome where
  | fieldsRequired
  | phoneInvalid
  | conflict
  | created
deriving DecidableEq, Repr

/-- HTTP status attached to each JSON register outcome. -/
def RegisterOutcome.http : RegisterOutcome → Nat
  | RegisterOutcome.fieldsRequired => 400
  | RegisterOutcome.phoneInvalid => 400
  | RegisterOutcome.conflict => 409
  | RegisterOutcome.created => 201

/-- The register route (api_register runs the same checks in the same
    order): field-presence check, 10-digit phone check, duplicate-email check
    against the stored rows, then insert of the row with the prefixed phone. -/
def register (users : List User) (req : RegisterRequest) :
    List User × RegisterOutcome :=
  let email := reqEmail req
  let phone := reqPhone req
  let location := reqLocation req
  if email == "" || phone == "" || location == "" then
    (users, RegisterOutcome.fieldsRequired)
  else if !(pyIsDigit phone) || pyLen phone != 10 then
    (users, RegisterOutcome.phoneInvalid)
  else
    let phoneWith91 := "+91" ++ phone
    if users.any (fun u => u.email == email) then (users, RegisterOutcome.conflict)
    else
      (users ++ [{ email := email, phone := phoneWith91, location := location }],
        RegisterOutcome.created)

/-- A row of the missing_persons table (the fields the verified routes read). -/
structure MissingPerson where
  id : Nat
  name : String
  status : String
  createdAt : Nat
deriving DecidableEq, Repr

/-- Response of the update_missing_status route; the 500 branch guarding a
    storage exception is unreachable in this model. -/
inductive UpdateStatusOutcome where
  | unauthorized
  | ok
deriving DecidableEq, Repr

/-- HTTP status of each update_missing_status outcome. -/
def UpdateStatusOutcome.http : UpdateStatusOutcome → Nat
  | UpdateStatusOutcome.unauthorized => 401
  | UpdateStatusOutcome.ok => 200

/-- The update_missing_status route: requires an admin session, reads the
    status key of the JSON body with default active, and runs the SQL UPDATE,
    which rewrites exactly the rows whose id matches and reports success
    whether or not any row matched. -/
def update_missing_status (admin : Bool) (persons : List MissingPerson)
    (personId : Nat) (statusParam : Option String) :
    List MissingPerson × UpdateStatusOutcome :=
  if !admin then (persons, UpdateStatusOutcome.unauthorized)
  else
    let newStatus := statusParam.getD "active"
    (persons.map (fun p => if p.id == personId then { p with status := newStatus } else p),
      UpdateStatusOutcome.ok)

/-- Sort key of the missing page: CASE WHEN status = active THEN 0 ELSE 1. -/
def statusRank (p : MissingPerson) : Nat :=
  if p.status == "active" then 0 else 1

/-- Ordering of the public missing page: active rows first, newer rows first
    inside each group. -/
def missingLe (p q : MissingPerson) : Prop :=
  statusRank p < statusRank q ∨ (statusRank p = statusRank q ∧ q.createdAt ≤ p.createdAt)

instance : DecidableRel missingLe := fun p q => by
  unfold missingLe
  infer_instance

/-- The public missing route: selects every missing_persons row, ordered
    active first and then newer first. -/
def missing_page_persons (persons : List MissingPerson) : List MissingPerson :=
  persons.insertionSort missingLe

/-- Ordering of the public API listing: newer rows first. -/
def newerFirst (p q : MissingPerson) : Prop :=
  q.createdAt ≤ p.createdAt

instance : DecidableRel newerFirst := fun p q => by
  unfold newerFirst
  infer_instance

/-- The api_missing_persons route: selects the rows WHERE status = active,
    ordered newer first. -/
def api_missing_persons (persons : List MissingPerson) : List MissingPerson :=
  (persons.filter (fun p => p.status == "active")).insertionSort newerFirst

/-- The success count of the email loop equals the number of attempted
    addresses whose send succeeded. -/
theorem emailLoop_fst (sendOk : String → Bool) (l : List String) :
    (emailLoop sendOk l).1 = (emailLoop sendOk l).2.countP sendOk := by
  induction l with
  | nil => rfl
  | cons e rest ih =>
    by_cases he : (e == "") = true
    · simp [emailLoop, he, ih]
    · by_cases hs : sendOk e = true
      · simp [emailLoop, he, hs, List.countP_cons, ih]
      · simp [emailLoop, he, hs, List.countP_cons, ih]

/-- The addresses attempted by the email loop are exactly the truthy
    recipients, in order, regardless of which individual sends fail. -/
theorem emailLoop_snd (sendOk : String → Bool) (l : List String) :
    (emailLoop sendOk l).2 = l.filter (fun e => e != "") := by
  induction l with
  | nil => rfl
  | cons e rest ih =>
    by_cases he : (e == "") = true
    · have he2 : e = "" := by simpa using he
      simp [emailLoop, he, he2, List.filter_cons, ih]
    · have he2 : ¬e = "" := by simpa using he
      by_cases hs : sendOk e = true
      · simp [emailLoop, he, he2, hs, List.filter_cons, ih]
      · simp [emailLoop, he, he2, hs, List.filter_cons, ih]

/-- Case-free description of broadcast_alert used by the claim proofs. -/
theorem broadcast_alert_eq (smsOk : String → Bool) (env : EmailEnv)
    (users : List User) (location : Option String) :
    broadcast_alert smsOk env users location =
      if (phonesOf (resolveUsers users location)).isEmpty
          && (emailsOf (resolveUsers users location)).isEmpty then
        { returned := 0, trace := [] }
      else
        { returned := max ((phonesOf (resolveUsers users location)).countP smsOk)
            (if (emailsOf (resolveUsers users location)).isEmpty then 0
              else (send_email_bulk env (emailsOf (resolveUsers users location))).1),
          trace := (phonesOf (resolveUsers users location)).map Ev.smsSend ++
            (if (emailsOf (resolveUsers users location)).isEmpty then []
              else (send_email_bulk env (emailsOf (resolveUsers users location))).2) } := by
  unfold broadcast_alert
  by_cases h1 : ((phonesOf (resolveUsers users location)).isEmpty
      && (emailsOf (resolveUsers users location)).isEmpty) = true
  · simp [h1]
  · by_cases h2 : (emailsOf (resolveUsers users location)).isEmpty = true
    · simp [h1, h2]
    · simp [h1, h2]

/-- C2: a broadcast whose resolved subscriber set yields an empty phone
    partition and an empty email partition returns 0 and performs no
    transport call at all (empty trace: no SMS submission and no SMTP
    connection). -/
theorem broadcast_empty_partitions_short_circuit (smsOk : String → Bool)
    (env : EmailEnv) (users : List User) (location : Option String)
    (h1 : phonesOf (resolveUsers users location) = [])
    (h2 : emailsOf (resolveUsers users location) = []) :
    broadcast_alert smsOk env users location = { returned := 0, trace := [] } := by
  rw [broadcast_alert_eq]
  simp [h1, h2]

/-- Witness for C2 on a store with no subscribers. -/
theorem broadcast_empty_partitions_short_circuit_witness :
    broadcast_alert (fun _ => false) { configOk := false, connOk := false, sendOk := fun _ => false }
        [] none = { returned := 0, trace := [] } :=
  broadcast_empty_partitions_short_circuit (fun _ => false)
    { configOk := false, connOk := false, sendOk := fun _ => false } [] none rfl rfl

/-- Extractor distribution over an appended trace. -/
theorem smsSends_append (a b : List Ev) :
    smsSends (a ++ b) = smsSends a ++ smsSends b := by
  simp [smsSends, List.filterMap_append]

/-- Extractor distribution over an appended trace. -/
theorem emailSends_append (a b : List Ev) :
    emailSends (a ++ b) = emailSends a ++ emailSends b := by
  simp [emailSends, List.filterMap_append]

/-- SMS submissions recorded for a list of phones. -/
theorem smsSends_map (l : List String) : smsSends (l.map Ev.smsSend) = l := by
  induction l with
  | nil => rfl
  | cons p rest ih => simp [smsSends, List.filterMap_cons] at ih ⊢; exact ih

/-- A trace of SMS submissions holds no email sends. -/
theorem emailSends_map_sms (l : List String) : emailSends (l.map Ev.smsSend) = [] := by
  induction l with
  | nil => rfl
  | cons p rest ih => simp [emailSends, List.filterMap_cons]

/-- A trace of email sends holds no SMS submissions. -/
theorem smsSends_map_email (l : List String) : smsSends (l.map Ev.emailSend) = [] := by
  induction l with
  | nil => rfl
  | cons p rest ih => simp [smsSends, List.filterMap_cons]

/-- Email sends recorded for a list of addresses. -/
theorem emailSends_map_email (l : List String) : emailSends (l.map Ev.emailSend) = l := by
  induction l with
  | nil => rfl
  | cons p rest ih => simp [emailSends, List.filterMap_cons] at ih ⊢; exact ih

/-- The bulk email sender never submits an SMS. -/
theorem smsSends_email_bulk (env : EmailEnv) (recipients : List String) :
    smsSends (send_email_bulk env recipients).2 = [] := by
  unfold send_email_bulk
  by_cases hc : env.configOk = true
  · by_cases hk : env.connOk = true
    · simp [hc, hk, smsSends, List.filterMap_cons, smsSends_map_email]
    · simp [hc, hk, smsSends]
  · simp [hc, smsSends]

/-- Every address the bulk email sender attempts is one of its recipients. -/
theorem emailSends_email_bulk_sub (env : EmailEnv) (recipients : List String)
    (a : String) (ha : a ∈ emailSends (send_email_bulk env recipients).2) :
    a ∈ recipients := by
  unfold send_email_bulk at ha
  by_cases hc : env.configOk = true
  · by_cases hk : env.connOk = true
    · simp only [hc, hk, Bool.not_true, Bool.false_eq_true, if_false] at ha
      have h2 : emailSends (Ev.smtpConnect ::
          ((emailLoop env.sendOk recipients).2.map Ev.emailSend))
          = (emailLoop env.sendOk recipients).2 := by
        have := emailSends_map_email (emailLoop env.sendOk recipients).2
        simpa [emailSends, List.filterMap_cons] using this
      rw [h2, emailLoop_snd] at ha
      exact (List.mem_filter.mp ha).1
    · simp [hc, hk, emailSends] at ha
  · simp [hc, emailSends] at ha

/-- The value of send_email_bulk is the number of its attempted sends that
    succeeded. -/
theorem send_email_bulk_fst (env : EmailEnv) (recipients : List String) :
    (send_email_bulk env recipients).1
      = (emailSends (send_email_bulk env recipients).2).countP env.sendOk := by
  unfold send_email_bulk
  by_cases hc : env.configOk = true
  · by_cases hk : env.connOk = true
    · simp only [hc, hk, Bool.not_true, Bool.false_eq_true, if_false]
      have h2 : emailSends (Ev.smtpConnect ::
          ((emailLoop env.sendOk recipients).2.map Ev.emailSend))
          = (emailLoop env.sendOk recipients).2 := by
        have := emailSends_map_email (emailLoop env.sendOk recipients).2
        simpa [emailSends, List.filterMap_cons] using this
      rw [h2]
      exact emailLoop_fst env.sendOk recipients
    · simp [hc, hk, emailSends]
  · simp [hc, emailSends]

/-- Trace of broadcast_alert by cases on the partitions. -/
theorem broadcast_trace_eq (smsOk : String → Bool) (env : EmailEnv)
    (users : List User) (location : Option String) :
    (broadcast_alert smsOk env users location).trace =
      if (phonesOf (resolveUsers users location)).isEmpty
          && (emailsOf (resolveUsers users location)).isEmpty then []
      else (phonesOf (resolveUsers users location)).map Ev.smsSend ++
        (if (emailsOf (resolveUsers users location)).isEmpty then []
          else (send_email_bulk env (emailsOf (resolveUsers users location))).2) := by
  rw [broadcast_alert_eq]
  by_cases h : ((phonesOf (resolveUsers users location)).isEmpty
      && (emailsOf (resolveUsers users location)).isEmpty) = true
  · simp [h]
  · simp [h]

/-- Returned value of broadcast_alert by cases on the partitions. -/
theorem broadcast_returned_eq (smsOk : String → Bool) (env : EmailEnv)
    (users : List User) (location : Option String) :
    (broadcast_alert smsOk env users location).returned =
      if (phonesOf (resolveUsers users location)).isEmpty
          && (emailsOf (resolveUsers users location)).isEmpty then 0
      else max ((phonesOf (resolveUsers users location)).countP smsOk)
        (if (emailsOf (resolveUsers users location)).isEmpty then 0
          else (send_email_bulk env (emailsOf (resolveUsers users location))).1) := by
  rw [broadcast_alert_eq]
  by_cases h : ((phonesOf (resolveUsers users location)).isEmpty
      && (emailsOf (resolveUsers users location)).isEmpty) = true
  · simp [h]
  · simp [h]

/-- Every phone an SMS was submitted for belongs to the phone partition of
    the resolved subscriber set. -/
theorem broadcast_smsSends_mem (smsOk : String → Bool) (env : EmailEnv)
    (users : List User) (location : Option String) (p : String)
    (hp : p ∈ smsSends (broadcast_alert smsOk env users location).trace) :
    p ∈ phonesOf (resolveUsers users location) := by
  rw [broadcast_trace_eq] at hp
  by_cases h : ((phonesOf (resolveUsers users location)).isEmpty
      && (emailsOf (resolveUsers users location)).isEmpty) = true
  · simp [h, smsSends] at hp
  · rw [if_neg h] at hp
    rw [smsSends_append, smsSends_map] at hp
    rcases List.mem_append.mp hp with hl | hr
    · exact hl
    · exfalso
      by_cases he : (emailsOf (resolveUsers users location)).isEmpty = true
      · simp [he, smsSends] at hr
      · rw [if_neg he, smsSends_email_bulk] at hr
        simp at hr

/-- Every address an email send was attempted for belongs to the email
    partition of the resolved subscriber set. -/
theorem broadcast_emailSends_mem (smsOk : String → Bool) (env : EmailEnv)
    (users : List User) (location : Option String) (a : String)
    (ha : a ∈ emailSends (broadcast_alert smsOk env users location).trace) :
    a ∈ emailsOf (resolveUsers users location) := by
  rw [broadcast_trace_eq] at ha
  by_cases h : ((phonesOf (resolveUsers users location)).isEmpty
      && (emailsOf (resolveUsers users location)).isEmpty) = true
  · simp [h, emailSends] at ha
  · rw [if_neg h] at ha
    rw [emailSends_append, emailSends_map_sms] at ha
    simp only [List.nil_append] at ha
    by_cases he : (emailsOf (resolveUsers users location)).isEmpty = true
    · simp [he, emailSends] at ha
    · rw [if_neg he] at ha
      exact emailSends_email_bulk_sub env _ a ha

/-- C1: a broadcast with a truthy location filter X submits SMS sends only
    for phones of subscribers stored with location exactly X (hence
    case-insensitively equal to X) and email sends only for their emails;
    a subscriber whose stored location differs from X, even only in letter
    case, is not resolved and so receives nothing; with no filter every
    subscriber is resolved. -/
theorem broadcast_dispatch_respects_location_filter (smsOk : String → Bool)
    (env : EmailEnv) (users : List User) (X : String) (hX : X ≠ "") :
    (∀ p ∈ smsSends (broadcast_alert smsOk env users (some X)).trace,
      ∃ u, u ∈ users ∧ u.phone = p ∧ u.location = X ∧ pyLower u.location = pyLower X) ∧
    (∀ a ∈ emailSends (broadcast_alert smsOk env users (some X)).trace,
      ∃ u, u ∈ users ∧ u.email = a ∧ u.location = X ∧ pyLower u.location = pyLower X) ∧
    (∀ u ∈ users, u.location ≠ X → u ∉ resolveUsers users (some X)) ∧
    resolveUsers users none = users := by
  have hres : resolveUsers users (some X)
      = users.filter (fun u => some u.location == some X) := by
    simp [resolveUsers, optTruthy, hX]
  refine ⟨?_, ?_, ?_, ?_⟩
  · intro p hp
    have hmem := broadcast_smsSends_mem smsOk env users (some X) p hp
    rw [hres] at hmem
    simp only [phonesOf, List.mem_map, List.mem_filter, bne_iff_ne, ne_eq,
      beq_iff_eq, Option.some.injEq] at hmem
    obtain ⟨u, ⟨⟨hu, hloc⟩, hph⟩, hpe⟩ := hmem
    exact ⟨u, hu, hpe, hloc, by rw [hloc]⟩
  · intro a ha
    have hmem := broadcast_emailSends_mem smsOk env users (some X) a ha
    rw [hres] at hmem
    simp only [emailsOf, List.mem_map, List.mem_filter, bne_iff_ne, ne_eq,
      beq_iff_eq, Option.some.injEq] at hmem
    obtain ⟨u, ⟨⟨hu, hloc⟩, hem⟩, hae⟩ := hmem
    exact ⟨u, hu, hae, hloc, by rw [hloc]⟩
  · intro u hu hne hmem
    rw [hres] at hmem
    have := (List.mem_filter.mp hmem).2
    simp only [beq_iff_eq, Option.some.injEq] at this
    exact hne this
  · rfl

/-- Witness for C1: filter Pune over a Pune subscriber and a Mumbai
    subscriber. -/
theorem broadcast_dispatch_respects_location_filter_witness :
    (∀ p ∈ smsSends (broadcast_alert (fun _ => true)
        { configOk := true, connOk := true, sendOk := fun _ => true }
        [{ email := "a@x.com", phone := "+910000000001", location := "Pune" },
          { email := "b@x.com", phone := "", location := "Mumbai" }] (some "Pune")).trace,
      ∃ u, u ∈ [({ email := "a@x.com", phone := "+910000000001", location := "Pune" } : User),
          { email := "b@x.com", phone := "", location := "Mumbai" }] ∧
        u.phone = p ∧ u.location = "Pune" ∧ pyLower u.location = pyLower "Pune") ∧
    (∀ a ∈ emailSends (broadcast_alert (fun _ => true)
        { configOk := true, connOk := true, sendOk := fun _ => true }
        [{ email := "a@x.com", phone := "+910000000001", location := "Pune" },
          { email := "b@x.com", phone := "", location := "Mumbai" }] (some "Pune")).trace,
      ∃ u, u ∈ [({ email := "a@x.com", phone := "+910000000001", location := "Pune" } : User),
          { email := "b@x.com", phone := "", location := "Mumbai" }] ∧
        u.email = a ∧ u.location = "Pune" ∧ pyLower u.location = pyLower "Pune") ∧
    (∀ u ∈ [({ email := "a@x.com", phone := "+910000000001", location := "Pune" } : User),
        { email := "b@x.com", phone := "", location := "Mumbai" }],
      u.location ≠ "Pune" →
        u ∉ resolveUsers [{ email := "a@x.com", phone := "+910000000001", location := "Pune" },
          { email := "b@x.com", phone := "", location := "Mumbai" }] (some "Pune")) ∧
    resolveUsers [{ email := "a@x.com", phone := "+910000000001", location := "Pune" },
        { email := "b@x.com", phone := "", location := "Mumbai" }] none
      = [{ email := "a@x.com", phone := "+910000000001", location := "Pune" },
          { email := "b@x.com", phone := "", location := "Mumbai" }] :=
  broadcast_dispatch_respects_location_filter (fun _ => true)
    { configOk := true, connOk := true, sendOk := fun _ => true }
    [{ email := "a@x.com", phone := "+910000000001", location := "Pune" },
      { email := "b@x.com", phone := "", location := "Mumbai" }] "Pune" (by decide)

/-- C3: when the resolved subscriber set yields at least one phone or one
    email recipient, the value broadcast_alert returns is the maximum of the
    number of successful SMS sends and the number of successful email sends. -/
theorem broadcast_returns_max_of_success_counts (smsOk : String → Bool)
    (env : EmailEnv) (users : List User) (location : Option String)
    (h : phonesOf (resolveUsers users location) ≠ []
      ∨ emailsOf (resolveUsers users location) ≠ []) :
    (broadcast_alert smsOk env users location).returned
      = max ((smsSends (broadcast_alert smsOk env users location).trace).countP smsOk)
          ((emailSends (broadcast_alert smsOk env users location).trace).countP env.sendOk) := by
  have hguard : ((phonesOf (resolveUsers users location)).isEmpty
      && (emailsOf (resolveUsers users location)).isEmpty) = false := by
    rcases h with h | h
    · simp [List.isEmpty_iff, h]
    · simp [List.isEmpty_iff, h]
  rw [broadcast_returned_eq, broadcast_trace_eq, hguard]
  simp only [Bool.false_eq_true, if_false]
  rw [smsSends_append, smsSends_map, emailSends_append, emailSends_map_sms]
  by_cases he : (emailsOf (resolveUsers users location)).isEmpty = true
  · simp [he, smsSends, emailSends]
  · rw [if_neg he, if_neg he]
    rw [smsSends_email_bulk, send_email_bulk_fst]
    simp

/-- Witness for C3 on one subscriber with both channels, all sends
    succeeding. -/
theorem broadcast_returns_max_of_success_counts_witness :
    (broadcast_alert (fun _ => true)
        { configOk := true, connOk := true, sendOk := fun _ => true }
        [{ email := "a@x.com", phone := "+910000000001", location := "Pune" }] none).returned
      = max ((smsSends (broadcast_alert (fun _ => true)
            { configOk := true, connOk := true, sendOk := fun _ => true }
            [{ email := "a@x.com", phone := "+910000000001", location := "Pune" }]
            none).trace).countP (fun _ => true))
          ((emailSends (broadcast_alert (fun _ => true)
            { configOk := true, connOk := true, sendOk := fun _ => true }
            [{ email := "a@x.com", phone := "+910000000001", location := "Pune" }]
            none).trace).countP (fun _ => true)) :=
  broadcast_returns_max_of_success_counts (fun _ => true)
    { configOk := true, connOk := true, sendOk := fun _ => true }
    [{ email := "a@x.com", phone := "+910000000001", location := "Pune" }] none
    (Or.inl (by decide))

/-- C5: the set of recipients a send is attempted for does not depend on the
    outcome of any individual send: whatever the per-recipient SMS and email
    outcome oracles are, every resolved subscriber with a truthy phone has an
    SMS submitted and, provided the email settings and the connection are
    good, every resolved subscriber with a truthy email has an email send
    attempted.  A failure for one recipient never removes another recipient
    of either channel. -/
theorem broadcast_attempts_every_recipient (smsOk : String → Bool)
    (env : EmailEnv) (users : List User) (location : Option String)
    (hc : env.configOk = true) (hk : env.connOk = true) :
    ∀ u ∈ resolveUsers users location,
      (u.phone ≠ "" →
        Ev.smsSend u.phone ∈ (broadcast_alert smsOk env users location).trace) ∧
      (u.email ≠ "" →
        Ev.emailSend u.email ∈ (broadcast_alert smsOk env users location).trace) := by
  intro u hu
  constructor
  · intro hph
    have hmem : u.phone ∈ phonesOf (resolveUsers users location) := by
      simp only [phonesOf, List.mem_map]
      exact ⟨u, List.mem_filter.mpr ⟨hu, by simpa using hph⟩, rfl⟩
    have hguard : ((phonesOf (resolveUsers users location)).isEmpty
        && (emailsOf (resolveUsers users location)).isEmpty) = false := by
      have hne : phonesOf (resolveUsers users location) ≠ [] := List.ne_nil_of_mem hmem
      simp [List.isEmpty_iff, hne]
    rw [broadcast_trace_eq, hguard]
    simp only [Bool.false_eq_true, if_false]
    exact List.mem_append_left _ (List.mem_map_of_mem Ev.smsSend hmem)
  · intro hem
    have hmem : u.email ∈ emailsOf (resolveUsers users location) := by
      simp only [emailsOf, List.mem_map]
      exact ⟨u, List.mem_filter.mpr ⟨hu, by simpa using hem⟩, rfl⟩
    have hne : emailsOf (resolveUsers users location) ≠ [] := List.ne_nil_of_mem hmem
    have hguard : ((phonesOf (resolveUsers users location)).isEmpty
        && (emailsOf (resolveUsers users location)).isEmpty) = false := by
      simp [List.isEmpty_iff, hne]
    have hee : (emailsOf (resolveUsers users location)).isEmpty = false := by
      simp [List.isEmpty_iff, hne]
    rw [broadcast_trace_eq, hguard]
    simp only [Bool.false_eq_true, if_false]
    apply List.mem_append_right
    rw [hee]
    simp only [Bool.false_eq_true, if_false]
    unfold send_email_bulk
    simp only [hc, hk, Bool.not_true, Bool.false_eq_true, if_false]
    apply List.mem_cons_of_mem
    apply List.mem_map_of_mem
    rw [emailLoop_snd]
    exact List.mem_filter.mpr ⟨hmem, by simpa using hem⟩

/-- Witness for C5: the second subscriber still has both sends attempted
    although every individual send fails. -/
theorem broadcast_attempts_every_recipient_witness :
    Ev.smsSend "+910000000002" ∈ (broadcast_alert (fun _ => false)
      { configOk := true, connOk := true, sendOk := fun _ => false }
      [{ email := "a@x.com", phone := "+910000000001", location := "Pune" },
        { email := "b@x.com", phone := "+910000000002", location := "Mumbai" }]
      none).trace ∧
    Ev.emailSend "b@x.com" ∈ (broadcast_alert (fun _ => false)
      { configOk := true, connOk := true, sendOk := fun _ => false }
      [{ email := "a@x.com", phone := "+910000000001", location := "Pune" },
        { email := "b@x.com", phone := "+910000000002", location := "Mumbai" }]
      none).trace :=
  ⟨(broadcast_attempts_every_recipient (fun _ => false)
      { configOk := true, connOk := true, sendOk := fun _ => false }
      [{ email := "a@x.com", phone := "+910000000001", location := "Pune" },
        { email := "b@x.com", phone := "+910000000002", location := "Mumbai" }] none
      rfl rfl
      { email := "b@x.com", phone := "+910000000002", location := "Mumbai" }
      (by decide)).1 (by decide),
    (broadcast_attempts_every_recipient (fun _ => false)
      { configOk := true, connOk := true, sendOk := fun _ => false }
      [{ email := "a@x.com", phone := "+910000000001", location := "Pune" },
        { email := "b@x.com", phone := "+910000000002", location := "Mumbai" }] none
      rfl rfl
      { email := "b@x.com", phone := "+910000000002", location := "Mumbai" }
      (by decide)).2 (by decide)⟩

/-- C4: an authenticated add_alert request with truthy title and message
    inserts and commits the alert row before any dispatch event, and the row
    is in the final alert log whatever the transport oracles do, in
    particular when every transport call fails. -/
theorem add_alert_persists_before_dispatch (smsOk : String → Bool) (env : EmailEnv)
    (st : AppState) (t m : String) (loc : Option String) (ht : t ≠ "") (hm : m ≠ "") :
    ({ title := t, message := m, location := loc } : Alert)
        ∈ (add_alert true smsOk env st (some t) (some m) loc).state.alerts ∧
    ∃ tail, (add_alert true smsOk env st (some t) (some m) loc).trace
        = Ev.insertAlert t m loc :: Ev.commit :: tail := by
  have h1 : optTruthy (some t) = true := by simp [optTruthy, ht]
  have h2 : optTruthy (some m) = true := by simp [optTruthy, hm]
  constructor
  · simp [add_alert, h1, h2]
  · exact ⟨(broadcast_alert smsOk env st.users loc).trace, by simp [add_alert, h1, h2]⟩

/-- Witness for C4: the alert row survives although SMS and email transports
    are fully down. -/
theorem add_alert_persists_before_dispatch_witness :
    ({ title := "Flood", message := "Evacuate now", location := some "Pune" } : Alert)
        ∈ (add_alert true (fun _ => false)
            { configOk := false, connOk := false, sendOk := fun _ => false }
            { users := [{ email := "a@x.com", phone := "+910000000001", location := "Pune" }],
              alerts := [] }
            (some "Flood") (some "Evacuate now") (some "Pune")).state.alerts ∧
    ∃ tail, (add_alert true (fun _ => false)
        { configOk := false, connOk := false, sendOk := fun _ => false }
        { users := [{ email := "a@x.com", phone := "+910000000001", location := "Pune" }],
          alerts := [] }
        (some "Flood") (some "Evacuate now") (some "Pune")).trace
      = Ev.insertAlert "Flood" "Evacuate now" (some "Pune") :: Ev.commit :: tail :=
  add_alert_persists_before_dispatch (fun _ => false)
    { configOk := false, connOk := false, sendOk := fun _ => false }
    { users := [{ email := "a@x.com", phone := "+910000000001", location := "Pune" }],
      alerts := [] }
    "Flood" "Evacuate now" (some "Pune") (by decide) (by decide)

/-- C6 counterexample: a registration attempt whose normalized email already
    belongs to the stored subscriber but whose phone fails validation is
    answered with the 400 phone-validation outcome, not with the 409 conflict
    outcome the claim requires for every duplicate-email attempt. -/
theorem register_duplicate_email_bad_phone_not_conflict :
    register [{ email := "a@x.com", phone := "+911234567890", location := "Pune" }]
        { email := some "a@x.com", phone := some "123", location := some "Pune" }
      = ([{ email := "a@x.com", phone := "+911234567890", location := "Pune" }],
          RegisterOutcome.phoneInvalid) ∧
    RegisterOutcome.phoneInvalid ≠ RegisterOutcome.conflict ∧
    RegisterOutcome.phoneInvalid.http = 400 := by
  decide

/-- C6 amended: a registration attempt that passes the field-presence and
    phone checks and whose case-normalized email equals the email of a stored
    subscriber creates no new record, leaves the store untouched, and is
    answered with the conflict outcome (409 for JSON, the already-registered
    page for forms). -/
theorem register_duplicate_email_conflict (users : List User) (req : RegisterRequest)
    (hd : pyIsDigit (reqPhone req) = true)
    (hl : pyLen (reqPhone req) = 10)
    (hloc : reqLocation req ≠ "")
    (hne : reqEmail req ≠ "")
    (hdup : ∃ u, u ∈ users ∧ u.email = reqEmail req) :
    register users req = (users, RegisterOutcome.conflict) := by
  have hp : reqPhone req ≠ "" := by
    intro h
    rw [h] at hl
    exact absurd hl (by decide)
  have hg1 : (reqEmail req == "" || reqPhone req == "" || reqLocation req == "") = false := by
    simp [hne, hp, hloc]
  have hg2 : (!pyIsDigit (reqPhone req) || pyLen (reqPhone req) != 10) = false := by
    simp [hd, hl]
  have hg3 : users.any (fun u => u.email == reqEmail req) = true := by
    rcases hdup with ⟨u, hu, he⟩
    exact List.any_eq_true.mpr ⟨u, hu, by simp [he]⟩
  simp [register, hg1, hg2, hg3]

/-- Witness for C6 amended: the duplicate is detected case-insensitively
    because the incoming email is lowered before the lookup. -/
theorem register_duplicate_email_conflict_witness :
    register [{ email := "a@x.com", phone := "+911234567890", location := "Pune" }]
        { email := some "A@x.com", phone := some "1234567890", location := some "Pune" }
      = ([{ email := "a@x.com", phone := "+911234567890", location := "Pune" }],
          RegisterOutcome.conflict) :=
  register_duplicate_email_conflict
    [{ email := "a@x.com", phone := "+911234567890", location := "Pune" }]
    { email := some "A@x.com", phone := some "1234567890", location := some "Pune" }
    (by decide) (by decide) (by decide) (by decide)
    ⟨{ email := "a@x.com", phone := "+911234567890", location := "Pune" }, by decide⟩

/-- C7 counterexample: the phone check is Python str.isdigit plus length 10,
    and str.isdigit also accepts non-decimal Unicode digit characters, so a
    phone of ten SUPERSCRIPT TWO characters passes validation and is
    persisted with the +91 prefix although it is not ten decimal digits,
    where the claim demands a rejected request and nothing persisted. -/
theorem register_accepts_non_decimal_digit_phone :
    register []
        { email := some "a@x.com", phone := some "²²²²²²²²²²", location := some "Pune" }
      = ([{ email := "a@x.com", phone := "+91²²²²²²²²²²", location := "Pune" }],
          RegisterOutcome.created) ∧
    ("²²²²²²²²²²".data.all Char.isDigit) = false := by
  decide

/-- C7 amended: a registration attempt with a missing required field or
    whose stripped phone fails the Python digit test or is not exactly ten
    characters long is rejected with the 400 validation outcome and persists
    nothing; the digit test admits any Unicode digit characters, not only
    the ASCII decimal digits; and every accepted registration stores the
    stripped submitted value with +91 prepended. -/
theorem register_validation_and_phone_storage (users : List User) (req : RegisterRequest) :
    ((reqEmail req = "" ∨ reqPhone req = "" ∨ reqLocation req = ""
        ∨ ¬(pyIsDigit (reqPhone req) = true ∧ pyLen (reqPhone req) = 10)) →
      (register users req).1 = users ∧ ((register users req).2).http = 400) ∧
    ((register users req).2 = RegisterOutcome.created →
      (register users req).1 = users ++
        [{ email := reqEmail req, phone := "+91" ++ reqPhone req,
            location := reqLocation req }]) := by
  by_cases hg1 : (reqEmail req == "" || reqPhone req == "" || reqLocation req == "") = true
  · constructor
    · intro _
      simp [register, hg1, RegisterOutcome.http]
    · intro hc
      simp [register, hg1] at hc
  · by_cases hg2 : (!pyIsDigit (reqPhone req) || pyLen (reqPhone req) != 10) = true
    · constructor
      · intro _
        simp [register, hg1, hg2, RegisterOutcome.http]
      · intro hc
        simp [register, hg1, hg2] at hc
    · have h1 : reqEmail req ≠ "" := by
        intro h
        apply hg1
        simp [h]
      have h2 : reqPhone req ≠ "" := by
        intro h
        apply hg1
        simp [h]
      have h3 : reqLocation req ≠ "" := by
        intro h
        apply hg1
        simp [h]
      have h4 : pyIsDigit (reqPhone req) = true := by
        by_contra h
        apply hg2
        simp only [Bool.not_eq_true] at h
        simp [h]
      have h5 : pyLen (reqPhone req) = 10 := by
        by_contra h
        apply hg2
        simp [bne_iff_ne, h]
      constructor
      · intro hfalse
        rcases hfalse with h | h | h | h
        · exact absurd h h1
        · exact absurd h h2
        · exact absurd h h3
        · exact absurd ⟨h4, h5⟩ h
      · intro hc
        by_cases hg3 : users.any (fun u => u.email == reqEmail req) = true
        · simp [register, hg1, hg2, hg3] at hc
        · simp [register, hg1, hg2, hg3]

/-- Witness for C7: a short phone is rejected with 400 and nothing is
    stored. -/
theorem register_validation_and_phone_storage_witness :
    (register []
        { email := some "c@x.com", phone := some "12345", location := some "Pune" }).1
      = [] ∧
    ((register []
        { email := some "c@x.com", phone := some "12345", location := some "Pune" }).2).http
      = 400 :=
  (register_validation_and_phone_storage []
    { email := some "c@x.com", phone := some "12345", location := some "Pune" }).1
    (by decide)

/-- C8 counterexample: an authenticated status update naming an id with no
    matching report row is answered with the 200 success outcome, not the
    404 not-found outcome the claim requires; the route never checks that
    the row exists. -/
theorem update_missing_status_unknown_id_returns_success :
    update_missing_status true [] 1 (some "resolved") = ([], UpdateStatusOutcome.ok) ∧
    UpdateStatusOutcome.ok.http = 200 ∧ UpdateStatusOutcome.ok.http ≠ 404 := by
  decide

/-- C8 amended: an authenticated status update naming an id with no matching
    report row mutates no row and is answered with the 200 success outcome
    (rather than a not-found outcome). -/
theorem update_missing_status_unknown_id_noop (persons : List MissingPerson)
    (pid : Nat) (s : Option String) (h : ∀ p ∈ persons, p.id ≠ pid) :
    update_missing_status true persons pid s = (persons, UpdateStatusOutcome.ok) := by
  have hmap : ∀ (l : List MissingPerson), (∀ p ∈ l, p.id ≠ pid) →
      l.map (fun p => if p.id == pid then { p with status := s.getD "active" } else p)
        = l := by
    intro l
    induction l with
    | nil => intro _; rfl
    | cons p rest ih =>
      intro hl
      have hp : (p.id == pid) = false := by
        simp [beq_eq_false_iff_ne, hl p (List.mem_cons_self p rest)]
      simp only [List.map_cons, hp, Bool.false_eq_true, if_false]
      rw [ih (fun q hq => hl q (List.mem_cons_of_mem p hq))]
  unfold update_missing_status
  simp only [Bool.not_true, Bool.false_eq_true, if_false]
  rw [hmap persons h]

/-- Witness for C8 amended: updating id 2 in a store that only holds id 1
    changes nothing and reports success. -/
theorem update_missing_status_unknown_id_noop_witness :
    update_missing_status true
        [{ id := 1, name := "Asha", status := "active", createdAt := 0 }] 2
        (some "resolved")
      = ([{ id := 1, name := "Asha", status := "active", createdAt := 0 }],
          UpdateStatusOutcome.ok) :=
  update_missing_status_unknown_id_noop
    [{ id := 1, name := "Asha", status := "active", createdAt := 0 }] 2
    (some "resolved") (by decide)

/-- C9 counterexample: the public missing page surfaces a record whose
    status is resolved, contradicting the claim that the public listing
    surfaces only active records. -/
theorem missing_page_surfaces_resolved_record :
    ({ id := 1, name := "Asha", status := "resolved", createdAt := 5 } : MissingPerson)
        ∈ missing_page_persons
          [{ id := 1, name := "Asha", status := "resolved", createdAt := 5 }] ∧
    ({ id := 1, name := "Asha", status := "resolved", createdAt := 5 } :
        MissingPerson).status ≠ "active" := by
  decide

/-- C9 amended: the public missing page surfaces every record whatever its
    status (ordering active rows first), while the public API listing
    surfaces exactly the records whose status is active. -/
theorem public_missing_listings_membership (persons : List MissingPerson)
    (p : MissingPerson) (hp : p ∈ persons) :
    p ∈ missing_page_persons persons ∧
    (p.status = "active" → p ∈ api_missing_persons persons) ∧
    (∀ q ∈ api_missing_persons persons, q ∈ persons ∧ q.status = "active") := by
  refine ⟨?_, ?_, ?_⟩
  · unfold missing_page_persons
    exact (List.Perm.mem_iff (List.perm_insertionSort missingLe persons)).mpr hp
  · intro hs
    unfold api_missing_persons
    apply (List.Perm.mem_iff (List.perm_insertionSort newerFirst _)).mpr
    exact List.mem_filter.mpr ⟨hp, by simp [hs]⟩
  · intro q hq
    unfold api_missing_persons at hq
    have hq2 := (List.Perm.mem_iff (List.perm_insertionSort newerFirst _)).mp hq
    have hq3 := List.mem_filter.mp hq2
    exact ⟨hq3.1, by simpa using hq3.2⟩

/-- Witness for C9 amended on a one-record store. -/
theorem public_missing_listings_membership_witness :
    ({ id := 1, name := "Asha", status := "active", createdAt := 0 } : MissingPerson)
        ∈ missing_page_persons
          [{ id := 1, name := "Asha", status := "active", createdAt := 0 }] ∧
    (({ id := 1, name := "Asha", status := "active", createdAt := 0 } :
        MissingPerson).status = "active" →
      ({ id := 1, name := "Asha", status := "active", createdAt := 0 } : MissingPerson)
        ∈ api_missing_persons
          [{ id := 1, name := "Asha", status := "active", createdAt := 0 }]) ∧
    (∀ q ∈ api_missing_persons
        [{ id := 1, name := "Asha", status := "active", createdAt := 0 }],
      q ∈ [({ id := 1, name := "Asha", status := "active", createdAt := 0 } :
          MissingPerson)] ∧ q.status = "active") :=
  public_missing_listings_membership
    [{ id := 1, name := "Asha", status := "active", createdAt := 0 }]
    { id := 1, name := "Asha", status := "active", createdAt := 0 } (by decide)

/-- C10: an authenticated status update whose JSON body lacks the status key
    sets the targeted record to active (the parameter silently defaults),
    and any supplied string, including one outside the documented
    active/resolved pair, is stored as given, with a success response. -/
theorem update_missing_status_default_and_unrestricted (persons : List MissingPerson)
    (pid : Nat) (p : MissingPerson) (s : String) (hp : p ∈ persons) (hid : p.id = pid) :
    (∃ q, q ∈ (update_missing_status true persons pid none).1
        ∧ q.id = pid ∧ q.status = "active") ∧
    (∃ q, q ∈ (update_missing_status true persons pid (some s)).1
        ∧ q.id = pid ∧ q.status = s) ∧
    (update_missing_status true persons pid (some s)).2 = UpdateStatusOutcome.ok := by
  have hb : (p.id == pid) = true := by simp [hid]
  refine ⟨⟨{ p with status := "active" }, ?_, hid, rfl⟩,
    ⟨{ p with status := s }, ?_, hid, rfl⟩, rfl⟩
  · simp only [update_missing_status, Bool.not_true, Bool.false_eq_true, if_false]
    exact List.mem_map.mpr ⟨p, hp, by simp [hb]⟩
  · simp only [update_missing_status, Bool.not_true, Bool.false_eq_true, if_false]
    exact List.mem_map.mpr ⟨p, hp, by simp [hb]⟩

/-- Witness for C10: the default writes active and a string outside the
    documented pair is stored as is. -/
theorem update_missing_status_default_and_unrestricted_witness :
    (∃ q, q ∈ (update_missing_status true
        [{ id := 1, name := "Asha", status := "resolved", createdAt := 0 }] 1 none).1
      ∧ q.id = 1 ∧ q.status = "active") ∧
    (∃ q, q ∈ (update_missing_status true
        [{ id := 1, name := "Asha", status := "resolved", createdAt := 0 }] 1
        (some "archived")).1
      ∧ q.id = 1 ∧ q.status = "archived") ∧
    (update_missing_status true
        [{ id := 1, name := "Asha", status := "resolved", createdAt := 0 }] 1
        (some "archived")).2 = UpdateStatusOutcome.ok :=
  update_missing_status_default_and_unrestricted
    [{ id := 1, name := "Asha", status := "resolved", createdAt := 0 }] 1
    { id := 1, name := "Asha", status := "resolved", createdAt := 0 } "archived"
    (by decide) rfl
